import Mathlib

/-!
Shallow embedding of the wenokn_mcp query-planning system.

The Python sources embedded here are:
  * `smart_query/utils/df_utils.py` (plan collapse pass, dataframe-to-geodataframe conversion)
  * `smart_query/utils/string_utils.py` (SPARQL decoration stripping)
  * `smart_query/data_repo/dataframe_annotation.py` and `data_repository.py` (the result store)
  * `smart_query/data_system/data_system.py` (plan execution: linear loop and aggregation branch)
  * `smart_query/data_retriever/wen_okn_retriever.py` (tabular source adapter retry loop)
  * `server.py` (command surface: search_datasets, compute_zonal_stats, zonal_count)

Language-model calls (the Oracle), HTTP transports and geometry libraries are external
collaborators; they are modelled as environment records of functions supplied to each
embedded operation.  Nondeterministic oracle calls that happen once per loop iteration
are modelled as functions of the iteration counter.
-/

/-- One step of a query plan, as produced by `LLMDataSystem.get_request_plan` /
`get_query_plan`: a JSON object with fields `request`, `data_source` and `origin`.
(The linear-execution loop ignores `origin`; the collapse pass reads it.) -/
structure Step where
  request : String
  data_source : String
  origin : String
deriving DecidableEq

/-- A pandas DataFrame / GeoDataFrame abstracted to its column names and string-valued
rows (each row aligned with `columns`).  `attrs_data_name` models the
`gdf.attrs[...]` slot written by `df_to_gdf`. -/
structure PyDF where
  columns : List String
  rows : List (List String)
  attrs_data_name : Option String := none
deriving DecidableEq

/-- `pandas.DataFrame.empty`: true when any axis has length 0. -/
def PyDF.pyEmpty (df : PyDF) : Bool :=
  df.rows.isEmpty || df.columns.isEmpty

/-- `DataFrameAnnotation` from `dataframe_annotation.py`: a fetched table plus title,
creator and creation timestamp (column descriptions and metadata are not touched by the
operations embedded here). -/
structure DataFrameAnnot where
  df : PyDF
  title : String
  creator : String
  created_at : Int
deriving DecidableEq

/-- The `DataFrameAnnotation.__init__` constructor: `creator` defaults to "User",
`created_at` is the current time, and an empty `title` raises `ValueError`. -/
def mkDataFrameAnnot (df : PyDF) (title : String) (now : Int) :
    Except String DataFrameAnnot :=
  if title = "" then .error "ValueError: Title must be a non-empty string"
  else .ok { df := df, title := title, creator := "User", created_at := now }

/-! ## df_utils.py : the adjacency-collapse pass `find_and_remove_consecutive` -/

/-- The deletion condition of `find_and_remove_consecutive`: element `a` (at position
`i`) and its successor `b` satisfy `a.data_source == ds and a.origin == "System" and
b.data_source == ds`. -/
def stepViol (ds : String) (a b : Step) : Bool :=
  a.data_source == ds && a.origin == "System" && b.data_source == ds

/-- Whether some adjacent pair of the list satisfies the deletion condition; this is
exactly the loop guard of `find_and_remove_consecutive` (it recurses while such a pair
exists). -/
def hasAdjViol (ds : String) : List Step → Bool
  | a :: b :: rest => stepViol ds a b || hasAdjViol ds (b :: rest)
  | _ => false

/-- One pass of `find_and_remove_consecutive`: find the first index `i` with
`data[i].data_source == ds and data[i].origin == "System" and
data[i+1].data_source == ds`, and return the list with `data[i]` deleted
(`del data[i]`); `none` when no such index exists. -/
def removeFirstViol : List Step → String → Option (List Step)
  | a :: b :: rest, ds =>
    if stepViol ds a b then some (b :: rest)
    else
      match removeFirstViol (b :: rest) ds with
      | some l => some (a :: l)
      | none => none
  | _, _ => none

theorem removeFirstViol_length {l l' : List Step} {ds : String}
    (h : removeFirstViol l ds = some l') : l'.length + 1 = l.length := by
  induction l generalizing l' with
  | nil => simp [removeFirstViol] at h
  | cons a t ih =>
    match t with
    | [] => simp [removeFirstViol] at h
    | b :: rest =>
      rw [removeFirstViol] at h
      split at h
      · cases h; simp
      · cases hr : removeFirstViol (b :: rest) ds with
        | none => rw [hr] at h; cases h
        | some m =>
          rw [hr] at h
          cases h
          have := ih hr
          simp at this ⊢
          omega

/-- `find_and_remove_consecutive(data, data_source)` from `df_utils.py`: repeatedly
delete the first element that has the given `data_source`, has origin "System", and is
immediately followed by another element with that same `data_source`, until no such
element remains. -/
def find_and_remove_consecutive (data : List Step) (data_source : String) : List Step :=
  match h : removeFirstViol data data_source with
  | some l' => find_and_remove_consecutive l' data_source
  | none => data
termination_by data.length
decreasing_by
  have := removeFirstViol_length h
  omega

theorem removeFirstViol_none_iff {l : List Step} {ds : String} :
    removeFirstViol l ds = none ↔ hasAdjViol ds l = false := by
  induction l with
  | nil => simp [removeFirstViol, hasAdjViol]
  | cons a t ih =>
    match t with
    | [] => simp [removeFirstViol, hasAdjViol]
    | b :: rest =>
      rw [removeFirstViol, hasAdjViol]
      constructor
      · intro h
        split at h
        · cases h
        · next hviol =>
          cases hr : removeFirstViol (b :: rest) ds with
          | none =>
            simp [Bool.or_eq_false_iff]
            exact ⟨by simpa using hviol, ih.mp hr⟩
          | some m => rw [hr] at h; cases h
      · intro h
        rw [Bool.or_eq_false_iff] at h
        obtain ⟨h1, h2⟩ := h
        rw [if_neg (by simp [h1])]
        rw [ih.mpr h2]

theorem find_and_remove_consecutive_noviol (l : List Step) (ds : String) :
    hasAdjViol ds (find_and_remove_consecutive l ds) = false := by
  rw [find_and_remove_consecutive]
  split
  · exact find_and_remove_consecutive_noviol _ ds
  · next h => exact removeFirstViol_none_iff.mp h
termination_by l.length
decreasing_by
  next h => have := removeFirstViol_length h; omega

/-- Every element deleted by one pass of the collapse had origin "System" and the given
data source: the pass removes exactly one such element, keeping everything else in
order. -/
theorem removeFirstViol_decomp {l l' : List Step} {ds : String}
    (h : removeFirstViol l ds = some l') :
    ∃ pre e post, l = pre ++ e :: post ∧ l' = pre ++ post ∧
      e.data_source = ds ∧ e.origin = "System" := by
  induction l generalizing l' with
  | nil => simp [removeFirstViol] at h
  | cons a t ih =>
    match t with
    | [] => simp [removeFirstViol] at h
    | b :: rest =>
      rw [removeFirstViol] at h
      split at h
      · next hviol =>
        cases h
        simp only [stepViol, Bool.and_eq_true, beq_iff_eq] at hviol
        exact ⟨[], a, b :: rest, by simp, by simp, hviol.1.1, hviol.1.2⟩
      · cases hr : removeFirstViol (b :: rest) ds with
        | none => rw [hr] at h; cases h
        | some m =>
          rw [hr] at h
          cases h
          obtain ⟨pre, e, post, h1, h2, h3, h4⟩ := ih hr
          exact ⟨a :: pre, e, post, by simp [h1], by simp [h2], h3, h4⟩

theorem removeFirstViol_sublist {l l' : List Step} {ds : String}
    (h : removeFirstViol l ds = some l') : List.Sublist l' l := by
  obtain ⟨pre, e, post, h1, h2, _, _⟩ := removeFirstViol_decomp h
  subst h1; subst h2
  exact List.Sublist.append_left (List.sublist_cons_self _ _) pre

theorem removeFirstViol_count {l l' : List Step} {ds : String} {a : Step}
    (ha : ¬(a.data_source = ds ∧ a.origin = "System"))
    (h : removeFirstViol l ds = some l') : List.count a l' = List.count a l := by
  obtain ⟨pre, e, post, h1, h2, h3, h4⟩ := removeFirstViol_decomp h
  subst h1; subst h2
  have hea : e ≠ a := by
    intro he; subst he; exact ha ⟨h3, h4⟩
  simp [List.count_append, List.count_cons, hea]

/-- The head of the list returned by one collapse pass is either the original head or
an element whose data source is the collapsed one. -/
theorem removeFirstViol_head {l l' : List Step} {ds : String}
    (h : removeFirstViol l ds = some l') :
    ∀ x, l'.head? = some x → l.head? = some x ∨ x.data_source = ds := by
  induction l generalizing l' with
  | nil => simp [removeFirstViol] at h
  | cons a t ih =>
    match t with
    | [] => simp [removeFirstViol] at h
    | b :: rest =>
      rw [removeFirstViol] at h
      split at h
      · next hviol =>
        cases h
        intro x hx
        simp only [List.head?_cons, Option.some.injEq] at hx
        subst hx
        simp only [stepViol, Bool.and_eq_true, beq_iff_eq] at hviol
        exact Or.inr hviol.2
      · cases hr : removeFirstViol (b :: rest) ds with
        | none => rw [hr] at h; cases h
        | some m =>
          rw [hr] at h
          cases h
          intro x hx
          simp only [List.head?_cons, Option.some.injEq] at hx
          subst hx
          exact Or.inl rfl

/-- A pass collapsing data source `ds2` cannot create an adjacent violation for a
different data source `ds1`. -/
theorem removeFirstViol_preserve {ds1 ds2 : String} (hne : ds1 ≠ ds2) :
    ∀ {l l' : List Step}, hasAdjViol ds1 l = false →
      removeFirstViol l ds2 = some l' → hasAdjViol ds1 l' = false := by
  intro l
  induction l with
  | nil => intro l' _ h; simp [removeFirstViol] at h
  | cons a t ih =>
    match t with
    | [] => intro l' _ h; simp [removeFirstViol] at h
    | b :: rest =>
      intro l' hok h
      rw [hasAdjViol, Bool.or_eq_false_iff] at hok
      obtain ⟨hab, hrest⟩ := hok
      rw [removeFirstViol] at h
      split at h
      · cases h; exact hrest
      · cases hr : removeFirstViol (b :: rest) ds2 with
        | none => rw [hr] at h; cases h
        | some m =>
          rw [hr] at h
          cases h
          have hm : hasAdjViol ds1 m = false := ih hrest hr
          match hmm : m with
          | [] => simp [hasAdjViol]
          | c :: mt =>
            rw [hasAdjViol, Bool.or_eq_false_iff]
            refine ⟨?_, hm⟩
            have hc := removeFirstViol_head hr c (by simp)
            cases hc with
            | inl hc =>
              simp only [List.head?_cons, Option.some.injEq] at hc
              subst hc; exact hab
            | inr hc =>
              have hds : (c.data_source == ds1) = false := by
                rw [hc]
                simp only [beq_eq_false_iff_ne, ne_eq]
                exact fun habs => hne habs.symm
              simp [stepViol, hds]

theorem find_and_remove_consecutive_sublist (l : List Step) (ds : String) :
    List.Sublist (find_and_remove_consecutive l ds) l := by
  rw [find_and_remove_consecutive]
  split
  · next h =>
    exact List.Sublist.trans (find_and_remove_consecutive_sublist _ ds)
      (removeFirstViol_sublist h)
  · exact List.Sublist.refl l
termination_by l.length
decreasing_by
  next h => have := removeFirstViol_length h; omega

theorem find_and_remove_consecutive_count (l : List Step) (ds : String) (a : Step)
    (ha : ¬(a.data_source = ds ∧ a.origin = "System")) :
    List.count a (find_and_remove_consecutive l ds) = List.count a l := by
  rw [find_and_remove_consecutive]
  split
  · next h =>
    rw [find_and_remove_consecutive_count _ ds a ha]
    exact removeFirstViol_count ha h
  · rfl
termination_by l.length
decreasing_by
  next h => have := removeFirstViol_length h; omega

/-- Running the collapse pass for any data source preserves the absence of adjacent
violations for a data source for which it already holds. -/
theorem find_and_remove_consecutive_preserve {ds1 : String} (l : List Step)
    (ds2 : String) (h : hasAdjViol ds1 l = false) :
    hasAdjViol ds1 (find_and_remove_consecutive l ds2) = false := by
  by_cases heq : ds1 = ds2
  · subst heq; exact find_and_remove_consecutive_noviol l ds1
  · rw [find_and_remove_consecutive]
    split
    · next hr =>
      exact find_and_remove_consecutive_preserve _ ds2
        (removeFirstViol_preserve heq h hr)
    · exact h
termination_by l.length
decreasing_by
  next h => have := removeFirstViol_length h; omega

/-- The post-pass of `LLMDataSystem.get_request_plan`: the plan returned by the Oracle
is rewritten by applying `find_and_remove_consecutive` once for each data-source name in
`names` (in the source, the names of the registered dataframe retrievers whose
inner-join flag is set, in registration order). -/
def optimize_request_plan (plan : List Step) (names : List String) : List Step :=
  names.foldl find_and_remove_consecutive plan

theorem foldl_collapse_preserve {ds : String} (names : List String)
    (l : List Step) (h : hasAdjViol ds l = false) :
    hasAdjViol ds (List.foldl find_and_remove_consecutive l names) = false := by
  induction names generalizing l with
  | nil => exact h
  | cons n rest ih =>
    rw [List.foldl_cons]
    exact ih _ (find_and_remove_consecutive_preserve _ n h)

theorem optimize_request_plan_noviol (plan : List Step) (names : List String)
    (ds : String) (h : ds ∈ names) :
    hasAdjViol ds (optimize_request_plan plan names) = false := by
  induction names generalizing plan with
  | nil => cases h
  | cons n rest ih =>
    rw [optimize_request_plan, List.foldl_cons]
    rcases List.mem_cons.mp h with h1 | h1
    · subst h1
      exact foldl_collapse_preserve rest _ (find_and_remove_consecutive_noviol plan ds)
    · exact ih _ h1

/-! ## df_utils.py : `get_column_name_parts` and `df_to_gdf`

`get_column_name_parts` is `re.findall` with the pattern
`[A-Z]?[a-z]+|[A-Z]+(?=[A-Z]|$)` : a left-to-right scan collecting, at each position,
the leftmost match of either an optional uppercase letter followed by a maximal run of
lowercase letters, or a maximal run of uppercase letters that must be followed by
another uppercase letter or the end of the string (so a run followed by something else
yields all but its last letter). -/

/-- Maximal lowercase prefix of a character list, with the remainder. -/
def spanLower : List Char → List Char × List Char
  | [] => ([], [])
  | c :: cs =>
    if c.isLower then
      let p := spanLower cs
      (c :: p.1, p.2)
    else ([], c :: cs)

/-- Maximal uppercase prefix of a character list, with the remainder. -/
def spanUpper : List Char → List Char × List Char
  | [] => ([], [])
  | c :: cs =>
    if c.isUpper then
      let p := spanUpper cs
      (c :: p.1, p.2)
    else ([], c :: cs)

/-- The regex scan of `get_column_name_parts`, fuelled (the fuel strictly exceeds the
input length, so it never runs out). -/
def gcnpGo : Nat → List Char → List (List Char)
  | 0, _ => []
  | _ + 1, [] => []
  | fuel + 1, c :: cs =>
    if c.isLower then
      let p := spanLower (c :: cs)
      p.1 :: gcnpGo fuel p.2
    else if c.isUpper then
      match cs with
      | [] => [[c]]
      | d :: _ =>
        if d.isLower then
          let p := spanLower cs
          (c :: p.1) :: gcnpGo fuel p.2
        else
          let p := spanUpper (c :: cs)
          match p.2 with
          | [] => [p.1]
          | _ :: _ =>
            match p.1 with
            | [_] => gcnpGo fuel cs
            | _ =>
              let resume :=
                match p.1.getLast? with
                | some lc => lc :: p.2
                | none => p.2
              p.1.dropLast :: gcnpGo fuel resume
    else
      gcnpGo fuel cs

/-- `get_column_name_parts(column_name)` from `df_utils.py`. -/
def get_column_name_parts (s : String) : List String :=
  (gcnpGo (s.length + 1) s.toList).map (fun cs => String.mk cs)

/-- Python `str.capitalize()`: first character uppercased, the rest lowercased. -/
def pyCapitalize (s : String) : String :=
  match s.toList with
  | [] => ""
  | c :: cs => String.mk (c.toUpper :: cs.map Char.toLower)

/-- Parse the geometry cell (at column position `gidx`) of each row as well-known
text; a parse failure raises out of `df_to_gdf` (and is caught by the adapter's retry
loop). -/
def rowsGeoms (wktLoads : String → Except String String) (gidx : Nat) :
    List (List String) → Except String (List String)
  | [] => .ok []
  | r :: rest => do
    let g ← wktLoads (r.getD gidx "")
    let gs ← rowsGeoms wktLoads gidx rest
    .ok (g :: gs)

/-- Drop every column labelled `name` (pandas `drop(columns=[name])` drops all columns
carrying that label) from the header and from each row. -/
def dropCol (cols : List String) (rows : List (List String)) (name : String) :
    List String × List (List String) :=
  let keepIdx := (List.range cols.length).filter (fun i => cols.getD i "" ≠ name)
  (keepIdx.map (fun i => cols.getD i ""),
   rows.map (fun r => keepIdx.map (fun i => r.getD i "")))

/-- The column-renaming loop at the end of `df_to_gdf`: for each original column name,
split it into parts, take the last part as the new name, and rename when the data name
computed from the FIRST column's parts matches (the source computes `tmp_data_name`
from `column_name_parts`, not from the current column's parts, so the condition always
holds); renaming a label not present is a no-op, as in pandas. -/
def renameCols (column_name_parts : List String) (data_name : String) :
    List String → List String → Except String (List String)
  | cols2, [] => .ok cols2
  | cols2, col :: rest =>
    match (get_column_name_parts col).getLast? with
    | none => .error "IndexError: pop from empty list"
    | some tmp_name =>
      let tmp_data_name := pyCapitalize (String.intercalate " " column_name_parts)
      let cols3 :=
        if data_name = tmp_data_name then
          cols2.map (fun c => if c = col then tmp_name else c)
        else cols2
      renameCols column_name_parts data_name cols3 rest

/-- `df_to_gdf(df)` from `df_utils.py`: locate the columns whose name ends in
"Geometry", parse the first one as well-known text into a new `geometry` column, drop
the original geometry column, record a data name derived from the first column's name
parts, and rename columns to their last name part.  Raises (`Except.error`) when no
column name ends in "Geometry" (`geometry_column_names[0]` out of range), when a
geometry cell fails to parse, or when a column name yields no parts. -/
def df_to_gdf (wktLoads : String → Except String String) (df : PyDF) :
    Except String PyDF :=
  let column_names := df.columns
  let geometry_column_names := column_names.filter (fun x => x.endsWith "Geometry")
  match geometry_column_names with
  | [] => .error "IndexError: list index out of range"
  | g0 :: _ => do
    let gidx := column_names.indexOf g0
    let geoms ← rowsGeoms wktLoads gidx df.rows
    let withGeom :
        List String × List (List String) :=
      if column_names.contains "geometry" then
        let gi := column_names.indexOf "geometry"
        (column_names, (df.rows.zip geoms).map (fun p => p.1.set gi p.2))
      else
        (column_names ++ ["geometry"], (df.rows.zip geoms).map (fun p => p.1 ++ [p.2]))
    let dropped := dropCol withGeom.1 withGeom.2 g0
    match column_names with
    | [] => .error "IndexError: list index out of range"
    | c0 :: _ =>
      match get_column_name_parts c0 with
      | [] => .error "IndexError: pop from empty list"
      | parts0 =>
        let column_name_parts := parts0.dropLast
        let data_name := pyCapitalize (String.intercalate " " column_name_parts)
        let renamed ← renameCols column_name_parts data_name dropped.1 column_names
        .ok { columns := renamed, rows := dropped.2, attrs_data_name := some data_name }

/-- When no column name ends in "Geometry", `df_to_gdf` raises
(`geometry_column_names[0]` is out of range). -/
theorem df_to_gdf_no_geometry (wktLoads : String → Except String String) (df : PyDF)
    (h : df.columns.any (fun c => c.endsWith "Geometry") = false) :
    df_to_gdf wktLoads df = .error "IndexError: list index out of range" := by
  rw [df_to_gdf]
  have : df.columns.filter (fun x => x.endsWith "Geometry") = [] := by
    rw [List.filter_eq_nil_iff]
    intro a ha
    have := List.any_eq_false.mp h a ha
    simpa using this
  rw [this]

/-! ## string_utils.py : `strip_sparql_decoartion` -/

/-- Python `str.find(sub, start)`: the least index `≥ start` at which `sub` occurs,
or `-1`. -/
def pyFind (s sub : String) (start : Nat) : Int :=
  let l := s.toList
  let target := sub.toList
  match (List.range (l.length + 1)).find?
      (fun i => start ≤ i && List.isPrefixOf target (l.drop i)) with
  | some i => (i : Int)
  | none => -1

/-- Python slice `s[a:b]` with possibly negative bounds. -/
def pySlice (s : String) (a b : Int) : String :=
  let l := s.toList
  let n : Int := l.length
  let norm : Int → Nat := fun i =>
    if i < 0 then (max (n + i) 0).toNat else (min i n).toNat
  String.mk ((l.drop (norm a)).take (norm b - norm a))

/-- `strip_sparql_decoartion(data)` from `string_utils.py`: if the oracle's reply
starts with a quoted code fence, extract the fenced body and strip whitespace; if it is
merely wrapped in double quotes, remove them; otherwise return it unchanged. -/
def strip_sparql_decoartion (data : String) : String :=
  if data.startsWith "\"```sparql" then
    let start_index := pyFind data "```sparql" 0 + 9
    let end_index := pyFind data "```" start_index.toNat
    (pySlice data start_index end_index).trim
  else if data.startsWith "\"```code" then
    let start_index := pyFind data "```code" 0 + 7
    let end_index := pyFind data "```" start_index.toNat
    (pySlice data start_index end_index).trim
  else if data.startsWith "\"```" then
    let start_index := pyFind data "```" 0 + 3
    let end_index := pyFind data "```" start_index.toNat
    (pySlice data start_index end_index).trim
  else if data.startsWith "\"" && data.endsWith "\"" then
    pySlice data 1 (-1)
  else
    data

/-! ## data_repository.py : the Result Store -/

/-- Python list indexing (`repo[i]`): a negative index counts from the end; an index
out of `[-len, len)` is invalid. -/
def pyNormIndex (len : Nat) (i : Int) : Option Nat :=
  if 0 ≤ i then (if i < (len : Int) then some i.toNat else none)
  else
    let j := i + len
    if 0 ≤ j then some j.toNat else none

/-- Python `l[i]` returning `none` exactly when Python raises `IndexError`. -/
def pyGet {α : Type} (l : List α) (i : Int) : Option α :=
  (pyNormIndex l.length i).bind l.get?

/-- `DataRepository.remove_annotations_older_than(age_seconds)`: keep exactly the
stored results whose `created_at` is at least `now - age_seconds` (those strictly
older are dropped), in their original order.  `now` stands for `datetime.now()`. -/
def remove_annots_older_than (repo : List DataFrameAnnot) (now age_seconds : Int) :
    List DataFrameAnnot :=
  let cutoff := now - age_seconds
  repo.filter (fun ann => decide (cutoff ≤ ann.created_at))

/-- The FIRST (index-based) definition of `DataRepository.remove_dataframe_annotation`
(data_repository.py lines 24-28): delete the entry at the given index, raising
`IndexError` when it is invalid.  In the Python class body this definition is
overridden by a later method of the same name, so it is dead code. -/
def remove_dataframe_annot_by_index (repo : List DataFrameAnnot) (index : Int) :
    Except String (List DataFrameAnnot) :=
  match pyNormIndex repo.length index with
  | some k => .ok (repo.eraseIdx k)
  | none => .error "IndexError: No dataframe at index"

/-- The EFFECTIVE `DataRepository.remove_dataframe_annotation`: the Python class body
defines the method twice, and the later definition (lines 72-73, parameter
`description`, body `pass`) shadows the earlier index-based one, so calling the method
does nothing and returns `None`, whatever argument is passed. -/
def remove_dataframe_annot (repo : List DataFrameAnnot) (_argument : Int) :
    List DataFrameAnnot :=
  repo

/-! ## data_system.py : the linear-plan execution loop of `process_request`

The loop iterates over the plan returned by the planner.  For each step it looks up
the retriever by `data_source` name; if it is a dataframe retriever it first asks the
Result Store's semantic-contains oracle for the STEP's request text, and on a hit asks
the semantic-index oracle — passing the loop's enclosing top-level `request` variable,
not the step's text — converts the reply to an int and indexes the store with Python
semantics; on a miss it calls the retriever's `get_dataframe_annotation`, raises when
the result table is empty, marks every step but the last as System-created and appends
the new result to the store. -/

/-- The external collaborators of the linear loop.  The two store oracles are LLM
calls that receive the current store contents and a description; the resolver stands
for `retriever.get_dataframe_annotation(self.data_repo, request)` of the retriever
registered under the given name (it may return `none`, as `WENOKNRetriever` does on
exhausted retries). -/
structure LinearEnv where
  hasRetriever : String → Bool
  isDataFrameRetriever : String → Bool
  containsOracle : List DataFrameAnnot → String → Bool
  indexOracle : List DataFrameAnnot → String → Int
  resolve : String → List DataFrameAnnot → String → Option DataFrameAnnot

/-- Outcome of one iteration of the loop body: either the iteration raises, or it
continues with an updated store and last-result.  Each constructor also records which
resolver invocations `(step index, step request)` and which semantic-index lookups
(the description string passed) the iteration performed. -/
inductive StepOut where
  | fail (e : String) (resTr : List (Nat × String)) (lookTr : List String)
  | cont (repo : List DataFrameAnnot) (dfa : Option DataFrameAnnot)
      (resTr : List (Nat × String)) (lookTr : List String)

/-- One iteration of the loop body of `process_request` for step `s` at index `i` of a
plan of length `n`, given top-level request text `request`, current store `repo` and
current `dfa`. -/
def stepOne (env : LinearEnv) (request : String) (n : Nat)
    (repo : List DataFrameAnnot) (dfa : Option DataFrameAnnot) (i : Nat) (s : Step) :
    StepOut :=
  if env.hasRetriever s.data_source then
    if env.isDataFrameRetriever s.data_source then
      if env.containsOracle repo s.request then
        match pyGet repo (env.indexOracle repo request) with
        | none => .fail "IndexError: list index out of range" [] [request]
        | some cached => .cont repo (some cached) [] [request]
      else
        match env.resolve s.data_source repo s.request with
        | none =>
          .fail "AttributeError: NoneType object has no attribute df" [(i, s.request)] []
        | some d0 =>
          if d0.df.pyEmpty then
            .fail ("Failed to fetch data for the query: " ++ s.request)
              [(i, s.request)] []
          else
            let d1 := if i < n - 1 then { d0 with creator := "System" } else d0
            .cont (repo ++ [d1]) (some d1) [(i, s.request)] []
    else
      .cont repo dfa [] []
  else
    .cont repo dfa [] []

instance {ε α : Type} [DecidableEq ε] [DecidableEq α] : DecidableEq (Except ε α) :=
  fun x y =>
    match x, y with
    | .ok a, .ok b =>
      if h : a = b then .isTrue (by rw [h])
      else .isFalse (by intro hc; cases hc; exact h rfl)
    | .error a, .error b =>
      if h : a = b then .isTrue (by rw [h])
      else .isFalse (by intro hc; cases hc; exact h rfl)
    | .ok _, .error _ => .isFalse (by intro hc; cases hc)
    | .error _, .ok _ => .isFalse (by intro hc; cases hc)

/-- Result of running the loop over (a suffix of) the plan: the final store and the
value of `dfa` returned (or the exception raised), plus the concatenated resolver and
index-lookup traces. -/
structure RunOut where
  result : Except String (List DataFrameAnnot × Option DataFrameAnnot)
  resolveTrace : List (Nat × String)
  lookupTrace : List String
deriving DecidableEq

/-- The loop of `process_request` over the steps of a linear plan, starting at step
index `i` (plan length `n`). -/
def process_request_steps (env : LinearEnv) (request : String) (n : Nat)
    (repo : List DataFrameAnnot) (dfa : Option DataFrameAnnot) (i : Nat) :
    List Step → RunOut
  | [] => ⟨.ok (repo, dfa), [], []⟩
  | s :: rest =>
    match stepOne env request n repo dfa i s with
    | .fail e t l => ⟨.error e, t, l⟩
    | .cont repo' dfa' t l =>
      let o := process_request_steps env request n repo' dfa' (i + 1) rest
      ⟨o.result, t ++ o.resolveTrace, l ++ o.lookupTrace⟩

/-- The non-aggregation branch of `LLMDataSystem.process_request`, applied to the plan
returned by `get_query_plan`: run the loop from the first step with an empty `dfa`. -/
def process_request_linear (env : LinearEnv) (request : String) (plan : List Step)
    (repo : List DataFrameAnnot) : RunOut :=
  process_request_steps env request plan.length repo none 0 plan

/-- Splitting lemma: running the loop over `xs ++ ys` runs it over `xs` and, if no
exception was raised, continues over `ys` from the resulting state, concatenating the
traces. -/
theorem process_request_steps_append (env : LinearEnv) (request : String) (n : Nat)
    (xs ys : List Step) :
    ∀ (repo : List DataFrameAnnot) (dfa : Option DataFrameAnnot) (i : Nat),
      process_request_steps env request n repo dfa i (xs ++ ys) =
        match process_request_steps env request n repo dfa i xs with
        | ⟨.ok (repo', dfa'), t, l⟩ =>
          let o := process_request_steps env request n repo' dfa' (i + xs.length) ys
          ⟨o.result, t ++ o.resolveTrace, l ++ o.lookupTrace⟩
        | ⟨.error e, t, l⟩ => ⟨.error e, t, l⟩ := by
  induction xs with
  | nil =>
    intro repo dfa i
    simp [process_request_steps]
  | cons s rest ih =>
    intro repo dfa i
    rw [List.cons_append, process_request_steps, process_request_steps]
    cases hs : stepOne env request n repo dfa i s with
    | fail e t l => rfl
    | cont repo' dfa' t l =>
      simp only
      rw [ih repo' dfa' (i + 1)]
      cases hrest : process_request_steps env request n repo' dfa' (i + 1) rest with
      | mk res t2 l2 =>
        cases res with
        | ok p =>
          cases p with
          | mk r2 d2 =>
            simp only [List.length_cons]
            have : i + 1 + rest.length = i + (rest.length + 1) := by omega
            rw [this]
            simp [List.append_assoc]
        | error e => simp

/-- An iteration of the loop body performs at most one resolver invocation, and only
for the step it executes. -/
theorem stepOne_resTr (env : LinearEnv) (request : String) (n : Nat)
    (repo : List DataFrameAnnot) (dfa : Option DataFrameAnnot) (i : Nat) (s : Step)
    (out : StepOut) (hout : stepOne env request n repo dfa i s = out) :
    (match out with | .fail _ t _ => t | .cont _ _ t _ => t) = [] ∨
    (match out with | .fail _ t _ => t | .cont _ _ t _ => t) = [(i, s.request)] := by
  rw [stepOne] at hout
  split at hout
  · split at hout
    · split at hout
      · split at hout <;> (subst hout; simp)
      · split at hout
        · subst hout; simp
        · split at hout <;> (subst hout; simp)
    · subst hout; simp
  · subst hout; simp

/-- The resolver-invocation trace only mentions step indices within the executed
range. -/
theorem process_request_steps_trace_lt (env : LinearEnv) (request : String) (n : Nat) :
    ∀ (xs : List Step) (repo : List DataFrameAnnot) (dfa : Option DataFrameAnnot)
      (i : Nat) (p : Nat × String),
      p ∈ (process_request_steps env request n repo dfa i xs).resolveTrace →
      p.1 < i + xs.length := by
  intro xs
  induction xs with
  | nil => intro repo dfa i p hp; simp [process_request_steps] at hp
  | cons s rest ih =>
    intro repo dfa i p hp
    rw [process_request_steps] at hp
    cases hs : stepOne env request n repo dfa i s with
    | fail e t l =>
      rw [hs] at hp
      have ht := stepOne_resTr env request n repo dfa i s _ hs
      simp only at ht hp
      rcases ht with ht | ht <;> subst ht
      · simp at hp
      · simp at hp
        subst hp
        simp
    | cont repo' dfa' t l =>
      rw [hs] at hp
      have ht := stepOne_resTr env request n repo dfa i s _ hs
      simp only at ht
      simp only [List.mem_append] at hp
      rcases hp with hp | hp
      · rcases ht with ht | ht <;> subst ht
        · simp at hp
        · simp at hp
          subst hp
          simp
      · have := ih repo' dfa' (i + 1) p hp
        simp only [List.length_cons]
        omega

/-! ## data_system.py : `execute_aggregation_plan` and the aggregation branch of
`process_request` -/

/-- External collaborators of the aggregation branch.  `processRequest` stands for the
recursive `self.process_request` calls (returning a result and the updated store);
`totalBoundsDesc` is `describe_bbox(grouping_adf.df.total_bounds)` — the geometry
library's bounding box of a table rendered as text; `aggCode` is the result table `df`
left by `exec` of the Oracle-synthesized aggregation code; `createTitle` is
`create_title_from_request`; `now` is `datetime.now()`. -/
structure AggEnv where
  processRequest : List DataFrameAnnot → String → DataFrameAnnot × List DataFrameAnnot
  totalBoundsDesc : PyDF → String
  aggCode : DataFrameAnnot → DataFrameAnnot → String → PyDF
  createTitle : String → String
  now : Int

/-- `LLMDataSystem.execute_aggregation_plan(aggregation_plan)`: process the grouping
request (`query_plan[0]`), extend the summarizing request (`query_plan[1]`) with a
description of the grouping result's bounding box and process it, retitle the
summarizing result, synthesize and run the aggregation code for `query_plan[2]`, and
wrap the resulting table in a freshly-created annotation titled by the Oracle.
Alongside the result, the list of request texts passed to the nested
`process_request` calls is returned, in call order.  Plans with fewer than 3 steps
raise `IndexError` at the corresponding access. -/
def execute_aggregation_plan (env : AggEnv) (repo : List DataFrameAnnot)
    (query_plan : List Step) :
    Except String (DataFrameAnnot × List DataFrameAnnot) × List String :=
  match query_plan.get? 0 with
  | none => (.error "IndexError: list index out of range", [])
  | some st0 =>
    let grouping_object_request := st0.request
    let p1 := env.processRequest repo grouping_object_request
    match query_plan.get? 1 with
    | none => (.error "IndexError: list index out of range", [grouping_object_request])
    | some st1 =>
      let summarizing_object_request := st1.request
      let bbox_desc := env.totalBoundsDesc p1.1.df
      let optimized_summarizing_object_request :=
        summarizing_object_request ++ " intersects with the bounding box " ++ bbox_desc
      let p2 := env.processRequest p1.2 optimized_summarizing_object_request
      let summarizing_adf :=
        { p2.1 with
          title := summarizing_object_request ++
            " intersects with the bounding box of " ++ grouping_object_request }
      match query_plan.get? 2 with
      | none =>
        (.error "IndexError: list index out of range",
         [grouping_object_request, optimized_summarizing_object_request])
      | some st2 =>
        let aggregation_request := st2.request
        let df := env.aggCode p1.1 summarizing_adf aggregation_request
        match mkDataFrameAnnot df (env.createTitle aggregation_request) env.now with
        | .error e =>
          (.error e, [grouping_object_request, optimized_summarizing_object_request])
        | .ok dfa =>
          (.ok (dfa, p2.2),
           [grouping_object_request, optimized_summarizing_object_request])

/-- The aggregation branch of `LLMDataSystem.process_request`: execute the aggregation
plan, set the result's creator to "User", append it to the store and return it. -/
def process_request_agg (env : AggEnv) (repo : List DataFrameAnnot)
    (query_plan : List Step) :
    Except String (DataFrameAnnot × List DataFrameAnnot) × List String :=
  match execute_aggregation_plan env repo query_plan with
  | (.error e, tr) => (.error e, tr)
  | (.ok (dfa0, repo'), tr) =>
    let dfa := { dfa0 with creator := "User" }
    (.ok (dfa, repo' ++ [dfa]), tr)

/-! ## wen_okn_retriever.py : the tabular source adapter's retry loop -/

/-- External collaborators of `WENOKNRetriever.get_dataframe_annotation`.
`getCandidateConcepts` is the Oracle-backed SPARQL synthesis
(`text_to_sparql.get_candidate_concepts`), called afresh on every loop iteration and
therefore indexed by the attempt number; `sparqlGet` is
`sparql_dataframe.get(endpoint, query)` (an error models any exception: transport,
SPARQL, parse); `wktLoads` is `shapely.wkt.loads`; `createTitle` is
`create_title_from_request`; `additionalSources` stands for the whole
`get_dataframe_annotation_with_additional_sources` branch. -/
structure WenoknEnv where
  useOtherSources : String → Bool
  getCandidateConcepts : Nat → String → String
  sparqlGet : String → String → Except String PyDF
  wktLoads : String → Except String String
  createTitle : String → String
  now : Int
  additionalSources : String → Option DataFrameAnnot

/-- The backing SPARQL endpoint hard-coded in the adapter. -/
def wenokn_endpoint : String :=
  "http://132.249.238.155/repositories/wenokn_ohio_all"

/-- The query executed on attempt `k`: the Oracle's fresh synthesis for this attempt,
with escape sequences replaced and code-fence decoration stripped. -/
def attempt_query (env : WenoknEnv) (atomic_request : String) (k : Nat) : String :=
  strip_sparql_decoartion
    ((((env.getCandidateConcepts k atomic_request).replace "\\n" "\n").replace
        "\\\"" "\"").replace "\\t" " ")

/-- The body of one attempt of the retry loop: synthesize a fresh query, execute it,
convert the table with `df_to_gdf` and wrap it in an annotation titled by the Oracle.
Any failure (`Except.error`) is caught by the loop and counted as a failed try. -/
def attempt_once (env : WenoknEnv) (atomic_request : String) (k : Nat) :
    Except String DataFrameAnnot := do
  let df ← env.sparqlGet wenokn_endpoint (attempt_query env atomic_request k)
  let gdf ← df_to_gdf env.wktLoads df
  mkDataFrameAnnot gdf (env.createTitle atomic_request) env.now

/-- The retry loop (`while tried < max_tries`), with `fuel = max_tries - tried`:
return the first successful attempt's annotation, or `none` (Python `return None`)
when every try failed.  The second component records the attempt numbers executed, in
order. -/
def wenoknGo (env : WenoknEnv) (atomic_request : String) (tried : Nat) :
    Nat → Option DataFrameAnnot × List Nat
  | 0 => (none, [])
  | fuel + 1 =>
    match attempt_once env atomic_request tried with
    | .ok dfa => (some dfa, [tried])
    | .error _ =>
      let r := wenoknGo env atomic_request (tried + 1) fuel
      (r.1, tried :: r.2)

/-- `WENOKNRetriever.get_dataframe_annotation(data_repo, atomic_request)`: when the
request mentions entities outside this source, delegate to the additional-sources
branch; otherwise run the retry loop with `max_tries = 5` starting at `tried = 0`. -/
def wenokn_get_dataframe_annot (env : WenoknEnv) (atomic_request : String) :
    Option DataFrameAnnot × List Nat :=
  if env.useOtherSources atomic_request then (env.additionalSources atomic_request, [])
  else wenoknGo env atomic_request 0 5

/-- Full characterization of the retry loop: the executed attempts are consecutive
starting at `tried`, at most `fuel` many; `none` is returned exactly when all `fuel`
attempts fail; a returned annotation is the result of the first successful attempt. -/
theorem wenoknGo_spec (env : WenoknEnv) (atomic_request : String) :
    ∀ (fuel tried : Nat),
      (wenoknGo env atomic_request tried fuel).2 =
        List.range' tried (wenoknGo env atomic_request tried fuel).2.length ∧
      (wenoknGo env atomic_request tried fuel).2.length ≤ fuel ∧
      ((wenoknGo env atomic_request tried fuel).1 = none →
        (wenoknGo env atomic_request tried fuel).2.length = fuel ∧
        ∀ k, tried ≤ k → k < tried + fuel →
          ∃ e, attempt_once env atomic_request k = .error e) ∧
      (∀ d, (wenoknGo env atomic_request tried fuel).1 = some d →
        ∃ k, tried ≤ k ∧ k < tried + fuel ∧
          attempt_once env atomic_request k = .ok d ∧
          ∀ j, tried ≤ j → j < k →
            ∃ e, attempt_once env atomic_request j = .error e) := by
  intro fuel
  induction fuel with
  | zero =>
    intro tried
    refine ⟨by simp [wenoknGo, List.range'], by simp [wenoknGo], ?_, ?_⟩
    · intro _
      exact ⟨by simp [wenoknGo], fun k hk1 hk2 => absurd hk2 (by omega)⟩
    · intro d hd
      simp [wenoknGo] at hd
  | succ fuel ih =>
    intro tried
    rw [wenoknGo]
    cases ha : attempt_once env atomic_request tried with
    | ok dfa =>
      refine ⟨by simp [List.range'], by simp, ?_, ?_⟩
      · intro h; cases h
      · intro d hd
        simp only [Option.some.injEq] at hd
        subst hd
        exact ⟨tried, le_refl _, by omega, ha, fun j hj1 hj2 => absurd hj2 (by omega)⟩
    | error e =>
      obtain ⟨ih1, ih2, ih3, ih4⟩ := ih (tried + 1)
      refine ⟨?_, ?_, ?_, ?_⟩
      · simp only [List.length_cons]
        have hr : List.range' tried
            ((wenoknGo env atomic_request (tried + 1) fuel).2.length + 1) =
            tried :: List.range' (tried + 1)
              (wenoknGo env atomic_request (tried + 1) fuel).2.length := rfl
        rw [hr, ← ih1]
      · simp only [List.length_cons]
        omega
      · intro h
        simp only at h
        obtain ⟨hl, hall⟩ := ih3 h
        refine ⟨by simp [hl], ?_⟩
        intro k hk1 hk2
        rcases Nat.eq_or_lt_of_le hk1 with hk | hk
        · exact ⟨e, by rw [hk] at ha; exact ha⟩
        · exact hall k (by omega) (by omega)
      · intro d hd
        simp only at hd
        obtain ⟨k, hk1, hk2, hk3, hk4⟩ := ih4 d hd
        refine ⟨k, by omega, by omega, hk3, ?_⟩
        intro j hj1 hj2
        rcases Nat.eq_or_lt_of_le hj1 with hj | hj
        · exact ⟨e, by rw [hj] at ha; exact ha⟩
        · exact hk4 j (by omega) hj2

/-! ## server.py : the command surface

`search_datasets` wraps the RAG endpoint; `compute_zonal_stats` and `zonal_count` post
a payload to a statistics endpoint.  All three catch exactly
`requests.exceptions.RequestException` (which includes HTTP status errors raised by
`raise_for_status` and JSON-decoding errors of `response.json()`); any other exception
raised inside the handler propagates to the caller.  The transport is modelled as an
`Except`: `Except.error` is a caught `RequestException`, and the handlers' own results
are again an `Except` whose `error` constructor is an exception that crosses the tool
boundary uncaught. -/

/-- One entry of a package's `resources` list, a JSON object read with `.get` (absent
keys yield `None`, modelled by `none`).  Only the keys the handler reads are kept. -/
structure Resource where
  format : Option String := none
  url : Option String := none
  wcs_coverage_id : Option String := none
  wcs_srs : Option String := none
  wms_layer : Option String := none
  wms_srs : Option String := none
deriving DecidableEq

/-- One package (dataset record) of the RAG response. -/
structure Package where
  resources : List Resource := []
  extras : List (String × String) := []
  title : Option String := none
  notes : Option String := none
  tags : List String := []
deriving DecidableEq

/-- The parsed body of a successful RAG response: either a JSON value that is not a
list (the handler returns an unexpected-format payload) or a list of packages. -/
inductive RagResponse where
  | nonList : RagResponse
  | list : List Package → RagResponse
deriving DecidableEq

/-- The `dataset_info` record built for each retained package. -/
structure DatasetInfo where
  wcs_coverage_id : Option String
  wcs_base_url : Option String
  wcs_projection : Option String
  wms_layer_name : Option String
  wms_base_url : Option String
  wms_projection : Option String
  title : String
  description : String
  data_units : String
  pillar : String
  element : String
  tags : List String
deriving DecidableEq

/-- The JSON object returned by `search_datasets`: a success flag, the optional result
fields, and an optional error message (fields absent from the corresponding Python
dict literal are `none`). -/
structure SearchPayload where
  success : Bool
  datasets : Option (List DatasetInfo)
  count : Option Nat
  query : String
  message : String
  error : Option String
deriving DecidableEq

/-- Python dict built by comprehension: a duplicated key keeps the LAST value;
`dict.get(key, default)`. -/
def pyDictGet (l : List (String × String)) (key default : String) : String :=
  match (l.filter (fun p => p.1 == key)).getLast? with
  | some p => p.2
  | none => default

/-- The first resource of the package whose `format` equals `fmt` (the `for ... break`
search in `search_datasets`). -/
def findResource (pkg : Package) (fmt : String) : Option Resource :=
  pkg.resources.find? (fun r => r.format == some fmt)

/-- Build `dataset_info` from a package and its WCS and WMS resources.  Note the
source reads `wms_projection` from the WCS resource (`wcs_resource.get('wms_srs')`). -/
def mkDatasetInfo (pkg : Package) (wcs wms : Resource) : DatasetInfo :=
  { wcs_coverage_id := wcs.wcs_coverage_id
    wcs_base_url := wcs.url
    wcs_projection := wcs.wcs_srs
    wms_layer_name := wms.wms_layer
    wms_base_url := wms.url
    wms_projection := wcs.wms_srs
    title := pkg.title.getD ""
    description := (pkg.notes.getD "").take 300
    data_units := pyDictGet pkg.extras "data_units" "unknown"
    pillar := pyDictGet pkg.extras "pillar" "unknown"
    element := pyDictGet pkg.extras "element" "unknown"
    tags := pkg.tags }

/-- The extraction loop of `search_datasets` over `results[:top_k]`: a package without
a WCS resource is skipped (`continue`); a package WITH a WCS resource but WITHOUT a WMS
resource makes the handler evaluate `wms_resource.get('wms_layer')` on `None`, raising
`AttributeError` out of the tool (only `RequestException` is caught). -/
def buildDatasets : List Package → Except String (List DatasetInfo)
  | [] => .ok []
  | pkg :: rest =>
    match findResource pkg "WCS" with
    | none => buildDatasets rest
    | some wcs =>
      match findResource pkg "WMS" with
      | none => .error "AttributeError: NoneType object has no attribute get"
      | some wms => do
        let tail ← buildDatasets rest
        .ok (mkDatasetInfo pkg wcs wms :: tail)

/-- `search_datasets(query, top_k, rag_endpoint)` from `server.py`, as a function of
the transport outcome `resp`.  The outer `Except.error` is an exception escaping to
the caller; `Except.ok` is a returned payload. -/
def search_datasets (query : String) (top_k : Nat)
    (resp : Except String RagResponse) : Except String SearchPayload :=
  match resp with
  | .error e =>
    .ok { success := false, datasets := none, count := none, query := query,
          message := "Failed to search datasets: " ++ e, error := some e }
  | .ok .nonList =>
    .ok { success := false, datasets := none, count := none, query := query,
          message := "Unexpected response format from RAG endpoint", error := none }
  | .ok (.list pkgs) =>
    match buildDatasets (pkgs.take top_k) with
    | .error e => .error e
    | .ok ds =>
      .ok { success := true, datasets := some ds, count := some ds.length,
            query := query,
            message := "Found " ++ toString ds.length ++ " relevant datasets",
            error := none }

/-- The HTTP call issued by `compute_zonal_stats` / `zonal_count`: the endpoint, the
resource bounds forwarded in the JSON payload, and the `timeout=` argument passed to
`requests.post`, which the source computes as `max(timeout, 60)`. -/
structure ZonalHttpCall where
  endpoint : String
  payload_max_retries : Int
  payload_timeout : Int
  payload_max_workers : Int
  http_timeout : Int
deriving DecidableEq

/-- The request issued by `compute_zonal_stats(... max_retries, timeout, max_workers,
api_endpoint)`. -/
def compute_zonal_stats_call (max_retries timeout max_workers : Int)
    (api_endpoint : String) : ZonalHttpCall :=
  { endpoint := api_endpoint
    payload_max_retries := max_retries
    payload_timeout := timeout
    payload_max_workers := max_workers
    http_timeout := max timeout 60 }

/-- The request issued by `zonal_count(... max_retries, timeout, max_workers,
api_endpoint)`. -/
def zonal_count_call (max_retries timeout max_workers : Int)
    (api_endpoint : String) : ZonalHttpCall :=
  { endpoint := api_endpoint
    payload_max_retries := max_retries
    payload_timeout := timeout
    payload_max_workers := max_workers
    http_timeout := max timeout 60 }

/-- A JSON value, for the verbatim pass-through of the statistics endpoint's body. -/
inductive PyJson where
  | obj : List (String × PyJson) → PyJson
  | arr : List PyJson → PyJson
  | str : String → PyJson
  | num : Int → PyJson
  | bool : Bool → PyJson
  | null : PyJson

/-- The response handling shared by `compute_zonal_stats` and `zonal_count`: on a
caught `RequestException` return the structured failure payload; otherwise return the
endpoint's JSON body verbatim (whatever shape it has). -/
def zonal_op_result (resp : Except String PyJson) : PyJson :=
  match resp with
  | .error e =>
    .obj [("success", .bool false), ("error", .str e),
          ("message", .str ("Failed to call API endpoint: " ++ e))]
  | .ok body => body

/-! ## Sample data and environments used by witnesses and counterexamples -/

/-- A sample cached annotation. -/
def dfaSample : DataFrameAnnot :=
  { df := { columns := ["Name"], rows := [["Ross County"]] }
    title := "Ross County in Ohio State", creator := "User", created_at := 100 }

/-- Environment for exercising the cached-lookup branch of the linear loop: the
contains-oracle always reports a hit, and the index-oracle answers 0 for the
top-level request text and an out-of-range 99 for anything else. -/
def envC2 : LinearEnv :=
  { hasRetriever := fun _ => true
    isDataFrameRetriever := fun _ => true
    containsOracle := fun _ _ => true
    indexOracle := fun _ description =>
      if description = "ORIGINAL REQUEST" then 0 else 99
    resolve := fun _ _ _ => none }

/-- An annotation whose table has no rows. -/
def dfaEmptyRows : DataFrameAnnot :=
  { df := { columns := ["Name"], rows := [] }
    title := "Empty fetch", creator := "User", created_at := 0 }

/-- Environment whose resolver returns an annotation with an empty table. -/
def envC5 : LinearEnv :=
  { hasRetriever := fun _ => true
    isDataFrameRetriever := fun _ => true
    containsOracle := fun _ _ => false
    indexOracle := fun _ _ => -1
    resolve := fun _ _ _ => some dfaEmptyRows }

/-- Adapter environment whose backing endpoint always raises. -/
def envC4 : WenoknEnv :=
  { useOtherSources := fun _ => false
    getCandidateConcepts := fun _ _ => "SELECT 1"
    sparqlGet := fun _ _ => .error "HTTPError: endpoint unreachable"
    wktLoads := fun s => .ok s
    createTitle := fun r => r
    now := 0
    additionalSources := fun _ => none }

/-- Aggregation environment with deterministic stub collaborators. -/
def envC3 : AggEnv :=
  { processRequest := fun repo r =>
      ({ df := { columns := ["Name"], rows := [[r]] }
         title := r, creator := "User", created_at := 1 }, repo)
    totalBoundsDesc := fun _ => "from (0.0, 0.0) to (1.0, 1.0)"
    aggCode := fun _ _ _ => { columns := ["Name", "Count"], rows := [["Ohio", "3"]] }
    createTitle := fun r => "Title of " ++ r
    now := 7 }

/-- A dataset record with a coverage (WCS) resource and no map (WMS) resource. -/
def pkgC8 : Package :=
  { resources := [{ format := some "WCS", url := some "https://example.org/wcs",
                    wcs_coverage_id := some "cov1" }] }

/-- A dataset record with both a coverage and a map resource. -/
def pkgC8ok : Package :=
  { resources := [{ format := some "WCS", url := some "https://example.org/wcs",
                    wcs_coverage_id := some "cov1" },
                  { format := some "WMS", url := some "https://example.org/wms",
                    wms_layer := some "layer1" }]
    extras := [("data_units", "tC/ha")]
    title := some "Carbon turnover"
    notes := some "Mean carbon turnover time"
    tags := ["carbon"] }

/-! ## Bridging lemmas between the Boolean loop guard and pairwise statements -/

theorem stepViol_eq_true_iff {ds : String} {a b : Step} :
    stepViol ds a b = true ↔
      (a.data_source = ds ∧ a.origin = "System" ∧ b.data_source = ds) := by
  simp [stepViol, and_assoc]

theorem stepViol_eq_false_iff {ds : String} {a b : Step} :
    stepViol ds a b = false ↔
      ¬(a.data_source = ds ∧ a.origin = "System" ∧ b.data_source = ds) := by
  rw [Bool.eq_false_iff]
  exact not_congr stepViol_eq_true_iff

theorem hasAdjViol_eq_false_iff {ds : String} {l : List Step} :
    hasAdjViol ds l = false ↔
      ∀ i a b, l.get? i = some a → l.get? (i + 1) = some b →
        ¬(a.data_source = ds ∧ a.origin = "System" ∧ b.data_source = ds) := by
  induction l with
  | nil =>
    simp only [hasAdjViol, true_iff]
    intro i a b ha
    simp at ha
  | cons x t ih =>
    cases t with
    | nil =>
      simp only [hasAdjViol, true_iff]
      intro i a b ha hb
      match i with
      | 0 => simp at hb
      | j + 1 => simp at ha
    | cons y rest =>
      rw [hasAdjViol, Bool.or_eq_false_iff]
      constructor
      · intro ⟨h1, h2⟩ i a b ha hb
        match i with
        | 0 =>
          simp only [List.get?] at ha hb
          cases ha; cases hb
          exact stepViol_eq_false_iff.mp h1
        | j + 1 =>
          exact ih.mp h2 j a b ha hb
      · intro h
        refine ⟨stepViol_eq_false_iff.mpr (h 0 x y rfl rfl), ?_⟩
        exact ih.mpr (fun j a b ha hb => h (j + 1) a b ha hb)

theorem buildDatasets_ok (pkgs : List Package)
    (h : ∀ pkg ∈ pkgs, (findResource pkg "WCS").isSome →
      (findResource pkg "WMS").isSome) :
    ∃ ds, buildDatasets pkgs = .ok ds := by
  induction pkgs with
  | nil => exact ⟨[], rfl⟩
  | cons pkg rest ih =>
    obtain ⟨tail, htail⟩ := ih (fun p hp => h p (by simp [hp]))
    rw [buildDatasets]
    cases hwcs : findResource pkg "WCS" with
    | none => exact ⟨tail, htail⟩
    | some wcs =>
      have := h pkg (by simp) (by rw [hwcs]; rfl)
      cases hwms : findResource pkg "WMS" with
      | none => rw [hwms] at this; cases this
      | some wms =>
        refine ⟨mkDatasetInfo pkg wcs wms :: tail, ?_⟩
        rw [htail]
        rfl

/-! ## The claims -/

/-- C1 (corrected).  The original claim — that after the collapse pass has been
applied for every registered source-adapter name, no two adjacent steps of a plan
share the same non-"System" `data_source` — is refuted by
`claim_C1_counterexample`.  What the pass does guarantee (amended claim): for every
plan and every data-source name for which the pass was applied, no step with origin
"System" and that data source is immediately followed by a step with the same data
source. -/
theorem claim_C1_collapse_system_only (plan : List Step) (names : List String)
    (ds : String) (h : ds ∈ names) :
    ∀ i a b, (optimize_request_plan plan names).get? i = some a →
      (optimize_request_plan plan names).get? (i + 1) = some b →
      a.data_source = ds → a.origin = "System" → b.data_source ≠ ds := by
  have hv := optimize_request_plan_noviol plan names ds h
  rw [hasAdjViol_eq_false_iff] at hv
  intro i a b ha hb h1 h2 h3
  exact hv i a b ha hb ⟨h1, h2, h3⟩

/-- C1 witness: the amended claim applied at a concrete plan (a "System" step on the
WEN-OKN source followed by a "User" step on the same source collapses, so the collapse
result has no System-led adjacent pair on that source). -/
theorem claim_C1_witness :
    ("WEN-OKN Database" : String) ∈ ["WEN-OKN Database", "Energy Atlas"] ∧
    ∀ i a b,
      (optimize_request_plan
          [⟨"Find Ohio River", "WEN-OKN Database", "System"⟩,
           ⟨"Find all counties Ohio River flows through", "WEN-OKN Database", "User"⟩]
          ["WEN-OKN Database", "Energy Atlas"]).get? i = some a →
      (optimize_request_plan
          [⟨"Find Ohio River", "WEN-OKN Database", "System"⟩,
           ⟨"Find all counties Ohio River flows through", "WEN-OKN Database", "User"⟩]
          ["WEN-OKN Database", "Energy Atlas"]).get? (i + 1) = some b →
      a.data_source = "WEN-OKN Database" → a.origin = "System" →
      b.data_source ≠ "WEN-OKN Database" :=
  ⟨by decide,
   claim_C1_collapse_system_only
     [⟨"Find Ohio River", "WEN-OKN Database", "System"⟩,
      ⟨"Find all counties Ohio River flows through", "WEN-OKN Database", "User"⟩]
     ["WEN-OKN Database", "Energy Atlas"] "WEN-OKN Database" (by decide)⟩

/-- C1 counterexample: two adjacent User-origin steps on the same registered source
survive the collapse pass (applied for every registered name — here the only
registered name), so the collapsed plan still has two adjacent steps sharing a
non-"System" data source. -/
theorem claim_C1_counterexample :
    optimize_request_plan
        [⟨"Find Ohio River", "WEN-OKN Database", "User"⟩,
         ⟨"Find all counties Ohio River flows through", "WEN-OKN Database", "User"⟩]
        ["WEN-OKN Database"] =
      [⟨"Find Ohio River", "WEN-OKN Database", "User"⟩,
       ⟨"Find all counties Ohio River flows through", "WEN-OKN Database", "User"⟩] ∧
    (⟨"Find Ohio River", "WEN-OKN Database", "User"⟩ : Step).data_source =
      (⟨"Find all counties Ohio River flows through", "WEN-OKN Database", "User"⟩ :
        Step).data_source ∧
    (⟨"Find Ohio River", "WEN-OKN Database", "User"⟩ : Step).data_source ≠
      "System" := by
  refine ⟨?_, rfl, by decide⟩
  have h0 : removeFirstViol
      [(⟨"Find Ohio River", "WEN-OKN Database", "User"⟩ : Step),
       ⟨"Find all counties Ohio River flows through", "WEN-OKN Database", "User"⟩]
      "WEN-OKN Database" = none := by decide
  rw [optimize_request_plan, List.foldl_cons, List.foldl_nil,
    find_and_remove_consecutive]
  split
  · next l' hl' => rw [h0] at hl'; cases hl'
  · rfl

/-- C10 (confirmed).  `find_and_remove_consecutive` returns a plan in which no step
with origin "System" and the given data source is immediately followed by a step with
that data source; the output is a subsequence of the input (surviving steps keep their
order); and only steps with origin "System" and that data source are ever removed
(every other step keeps its multiplicity). -/
theorem claim_C10_collapse_pass (data : List Step) (data_source : String) :
    (∀ i a b, (find_and_remove_consecutive data data_source).get? i = some a →
      (find_and_remove_consecutive data data_source).get? (i + 1) = some b →
      ¬(a.data_source = data_source ∧ a.origin = "System" ∧
        b.data_source = data_source)) ∧
    List.Sublist (find_and_remove_consecutive data data_source) data ∧
    (∀ a : Step, ¬(a.data_source = data_source ∧ a.origin = "System") →
      List.count a (find_and_remove_consecutive data data_source) =
        List.count a data) :=
  ⟨hasAdjViol_eq_false_iff.mp (find_and_remove_consecutive_noviol data data_source),
   find_and_remove_consecutive_sublist data data_source,
   fun a ha => find_and_remove_consecutive_count data data_source a ha⟩

/-- C10 witness: the collapse evaluated on a concrete plan (the System step is
removed, the User step is counted unchanged by the theorem's third part). -/
theorem claim_C10_witness :
    List.count (⟨"Find all counties Ohio River flows through", "D", "User"⟩ : Step)
        (find_and_remove_consecutive
          [⟨"Find Ohio River", "D", "System"⟩,
           ⟨"Find all counties Ohio River flows through", "D", "User"⟩] "D") =
      List.count (⟨"Find all counties Ohio River flows through", "D", "User"⟩ : Step)
        [⟨"Find Ohio River", "D", "System"⟩,
         ⟨"Find all counties Ohio River flows through", "D", "User"⟩] ∧
    find_and_remove_consecutive
        [⟨"Find Ohio River", "D", "System"⟩,
         ⟨"Find all counties Ohio River flows through", "D", "User"⟩] "D" =
      [⟨"Find all counties Ohio River flows through", "D", "User"⟩] := by
  constructor
  · exact (claim_C10_collapse_pass
      [⟨"Find Ohio River", "D", "System"⟩,
       ⟨"Find all counties Ohio River flows through", "D", "User"⟩] "D").2.2
      ⟨"Find all counties Ohio River flows through", "D", "User"⟩ (by decide)
  · have h0 : removeFirstViol
        [(⟨"Find Ohio River", "D", "System"⟩ : Step),
         ⟨"Find all counties Ohio River flows through", "D", "User"⟩] "D" =
        some [⟨"Find all counties Ohio River flows through", "D", "User"⟩] := by
      decide
    have h1 : removeFirstViol
        [(⟨"Find all counties Ohio River flows through", "D", "User"⟩ : Step)] "D" =
        none := by decide
    rw [find_and_remove_consecutive]
    split
    · next l' hl' =>
      rw [h0] at hl'
      cases hl'
      rw [find_and_remove_consecutive]
      split
      · next l'' hl'' => rw [h1] at hl''; cases hl''
      · rfl
    · next hl' => rw [h0] at hl'; cases hl'

/-- C6 (confirmed).  `remove_annotations_older_than` keeps exactly the annotations
whose `created_at` is within the age threshold of the current time — an annotation
survives iff it was stored and is not strictly older than `now - age_seconds` — and
the survivors keep their relative order (the result is a subsequence of the store). -/
theorem claim_C6_evict_older_than (repo : List DataFrameAnnot)
    (now age_seconds : Int) :
    List.Sublist (remove_annots_older_than repo now age_seconds) repo ∧
    ∀ a : DataFrameAnnot,
      a ∈ remove_annots_older_than repo now age_seconds ↔
        (a ∈ repo ∧ now - age_seconds ≤ a.created_at) := by
  constructor
  · exact List.filter_sublist _
  · intro a
    simp [remove_annots_older_than, List.mem_filter]

/-- C7 (code_bug).  The Result Store's remove-by-index operation is dead code: the
class defines `remove_dataframe_annotation` twice and the later `pass` stub shadows
the index-based version, so the effective method removes nothing and raises nothing,
for valid and invalid indices alike — while the shadowed first definition would have
deleted the entry at index 0 and raised IndexError for index 5. -/
theorem claim_C7_remove_by_index_noop :
    remove_dataframe_annot [dfaSample] 0 = [dfaSample] ∧
    remove_dataframe_annot [dfaSample] 5 = [dfaSample] ∧
    remove_dataframe_annot_by_index [dfaSample] 0 = .ok [] ∧
    remove_dataframe_annot_by_index [dfaSample] 5 =
      .error "IndexError: No dataframe at index" := by
  refine ⟨rfl, rfl, ?_, ?_⟩ <;> decide

/-- C9 (corrected).  The original claim — the HTTP request's timeout never exceeds
the caller-supplied timeout — is refuted by `claim_C9_counterexample` (for the default
timeout of 30 the request uses 60).  Amended claim: both operations issue the HTTP
request with timeout `max(timeout, 60)` — never below the caller's value, equal to it
whenever the caller supplies at least 60 — and forward the caller's timeout unchanged
to the endpoint in the payload. -/
theorem claim_C9_timeout_floor (max_retries timeout max_workers : Int)
    (api_endpoint : String) :
    (compute_zonal_stats_call max_retries timeout max_workers
        api_endpoint).http_timeout = max timeout 60 ∧
    (zonal_count_call max_retries timeout max_workers api_endpoint).http_timeout =
      max timeout 60 ∧
    timeout ≤ (compute_zonal_stats_call max_retries timeout max_workers
        api_endpoint).http_timeout ∧
    timeout ≤ (zonal_count_call max_retries timeout max_workers
        api_endpoint).http_timeout ∧
    (compute_zonal_stats_call max_retries timeout max_workers
        api_endpoint).payload_timeout = timeout ∧
    (zonal_count_call max_retries timeout max_workers
        api_endpoint).payload_timeout = timeout ∧
    (60 ≤ timeout →
      (compute_zonal_stats_call max_retries timeout max_workers
          api_endpoint).http_timeout = timeout ∧
      (zonal_count_call max_retries timeout max_workers
          api_endpoint).http_timeout = timeout) := by
  refine ⟨rfl, rfl, le_max_left _ _, le_max_left _ _, rfl, rfl, ?_⟩
  intro h
  constructor <;>
    simpa [compute_zonal_stats_call, zonal_count_call] using max_eq_left h

/-- C9 witness: the amended claim applied at timeout 90 (≥ 60): the HTTP timeout
equals the caller's value. -/
theorem claim_C9_witness :
    (compute_zonal_stats_call 3 90 16
        "https://sparcal.sdsc.edu/api/v1/Utility/compute_zonal_stats").http_timeout =
      90 ∧
    (zonal_count_call 3 90 16
        "https://sparcal.sdsc.edu/api/v1/Utility/zonal_count_batch").http_timeout =
      90 := by
  constructor
  · exact ((claim_C9_timeout_floor 3 90 16
      "https://sparcal.sdsc.edu/api/v1/Utility/compute_zonal_stats").2.2.2.2.2.2
      (by decide)).1
  · exact ((claim_C9_timeout_floor 3 90 16
      "https://sparcal.sdsc.edu/api/v1/Utility/zonal_count_batch").2.2.2.2.2.2
      (by decide)).2

/-- C2 (code_bug).  The cached-result branch of the linear loop is entered when
semantic-contains answers for the STEP's request text, but the index lookup that
follows passes the loop's enclosing top-level `request` variable
(`get_dataframe_annotation(request)`), not the step's text.  Here the index oracle
maps the original request to index 0 and everything else out of range; the run
succeeds, returns the cached annotation without any resolver invocation (empty
resolver trace), and its lookup trace holds the ORIGINAL request — had the step's
text been passed, the lookup would have been out of range. -/
theorem claim_C2_lookup_uses_original_request :
    process_request_linear envC2 "ORIGINAL REQUEST"
        [⟨"STEP REQUEST TEXT", "WEN-OKN Database", "User"⟩] [dfaSample] =
      ⟨.ok ([dfaSample], some dfaSample), [], ["ORIGINAL REQUEST"]⟩ ∧
    envC2.indexOracle [dfaSample] "STEP REQUEST TEXT" = 99 ∧
    pyGet [dfaSample] 99 = none := by
  refine ⟨?_, ?_, ?_⟩ <;> decide

/-- C3 (confirmed).  For every aggregation plan of at least three steps, execution
issues the grouping request first and the summarizing request second (the trace of
nested `process_request` calls, in order); the summarizing request actually executed
is the plan's summarizing request extended with the description of the grouping
result's bounding box; and the final synthesized result is wrapped in an annotation
titled by the Oracle, marked creator "User", and appended to the Result Store. -/
theorem claim_C3_aggregation_order_and_wrap (env : AggEnv)
    (repo : List DataFrameAnnot) (st0 st1 st2 : Step) (rest : List Step)
    (ht : env.createTitle st2.request ≠ "") :
    ∃ final : DataFrameAnnot,
      process_request_agg env repo (st0 :: st1 :: st2 :: rest) =
        (.ok (final,
          (env.processRequest (env.processRequest repo st0.request).2
            (st1.request ++ " intersects with the bounding box " ++
              env.totalBoundsDesc (env.processRequest repo st0.request).1.df)).2 ++
            [final]),
         [st0.request,
          st1.request ++ " intersects with the bounding box " ++
            env.totalBoundsDesc (env.processRequest repo st0.request).1.df]) ∧
      final.creator = "User" ∧
      final.title = env.createTitle st2.request ∧
      final.df = env.aggCode (env.processRequest repo st0.request).1
        { (env.processRequest (env.processRequest repo st0.request).2
            (st1.request ++ " intersects with the bounding box " ++
              env.totalBoundsDesc (env.processRequest repo st0.request).1.df)).1 with
          title := st1.request ++ " intersects with the bounding box of " ++
            st0.request }
        st2.request := by
  refine ⟨⟨env.aggCode (env.processRequest repo st0.request).1
      ({ (env.processRequest (env.processRequest repo st0.request).2
          (st1.request ++ " intersects with the bounding box " ++
            env.totalBoundsDesc (env.processRequest repo st0.request).1.df)).1 with
        title := st1.request ++ " intersects with the bounding box of " ++
          st0.request })
      st2.request,
    env.createTitle st2.request, "User", env.now⟩, ?_, rfl, rfl, rfl⟩
  have hmk : mkDataFrameAnnot
      (env.aggCode (env.processRequest repo st0.request).1
        ({ (env.processRequest (env.processRequest repo st0.request).2
            (st1.request ++ " intersects with the bounding box " ++
              env.totalBoundsDesc (env.processRequest repo st0.request).1.df)).1 with
          title := st1.request ++ " intersects with the bounding box of " ++
            st0.request })
        st2.request)
      (env.createTitle st2.request) env.now =
      .ok ⟨env.aggCode (env.processRequest repo st0.request).1
          ({ (env.processRequest (env.processRequest repo st0.request).2
              (st1.request ++ " intersects with the bounding box " ++
                env.totalBoundsDesc
                  (env.processRequest repo st0.request).1.df)).1 with
            title := st1.request ++ " intersects with the bounding box of " ++
              st0.request })
          st2.request,
        env.createTitle st2.request, "User", env.now⟩ := by
    rw [mkDataFrameAnnot, if_neg ht]
  have hexec : execute_aggregation_plan env repo (st0 :: st1 :: st2 :: rest) =
      (match mkDataFrameAnnot
          (env.aggCode (env.processRequest repo st0.request).1
            ({ (env.processRequest (env.processRequest repo st0.request).2
                (st1.request ++ " intersects with the bounding box " ++
                  env.totalBoundsDesc
                    (env.processRequest repo st0.request).1.df)).1 with
              title := st1.request ++ " intersects with the bounding box of " ++
                st0.request })
            st2.request)
          (env.createTitle st2.request) env.now with
        | .error e =>
          ((.error e : Except String (DataFrameAnnot × List DataFrameAnnot)),
           [st0.request,
            st1.request ++ " intersects with the bounding box " ++
              env.totalBoundsDesc (env.processRequest repo st0.request).1.df])
        | .ok dfa =>
          (.ok (dfa,
            (env.processRequest (env.processRequest repo st0.request).2
              (st1.request ++ " intersects with the bounding box " ++
                env.totalBoundsDesc (env.processRequest repo st0.request).1.df)).2),
           [st0.request,
            st1.request ++ " intersects with the bounding box " ++
              env.totalBoundsDesc (env.processRequest repo st0.request).1.df])) :=
    rfl
  rw [process_request_agg, hexec, hmk]

/-- C3 witness: the theorem applied to a concrete three-step aggregation plan with
the stub environment (the title oracle never returns an empty string there). -/
theorem claim_C3_witness :
    ∃ final : DataFrameAnnot,
      process_request_agg envC3 []
          [⟨"Find all counties in Ohio state", "WEN-OKN Database", "System"⟩,
           ⟨"Find all rivers", "WEN-OKN Database", "System"⟩,
           ⟨"Count rivers per county in Ohio state", "System", "System"⟩] =
        (.ok (final,
          (envC3.processRequest
            (envC3.processRequest [] "Find all counties in Ohio state").2
            ("Find all rivers" ++ " intersects with the bounding box " ++
              envC3.totalBoundsDesc
                (envC3.processRequest []
                  "Find all counties in Ohio state").1.df)).2 ++
            [final]),
         ["Find all counties in Ohio state",
          "Find all rivers" ++ " intersects with the bounding box " ++
            envC3.totalBoundsDesc
              (envC3.processRequest [] "Find all counties in Ohio state").1.df]) ∧
      final.creator = "User" ∧
      final.title = envC3.createTitle "Count rivers per county in Ohio state" ∧
      final.df = envC3.aggCode
        (envC3.processRequest [] "Find all counties in Ohio state").1
        ({ (envC3.processRequest
            (envC3.processRequest [] "Find all counties in Ohio state").2
            ("Find all rivers" ++ " intersects with the bounding box " ++
              envC3.totalBoundsDesc
                (envC3.processRequest []
                  "Find all counties in Ohio state").1.df)).1 with
          title := "Find all rivers" ++ " intersects with the bounding box of " ++
            "Find all counties in Ohio state" })
        "Count rivers per county in Ohio state" :=
  claim_C3_aggregation_order_and_wrap envC3 []
    ⟨"Find all counties in Ohio state", "WEN-OKN Database", "System"⟩
    ⟨"Find all rivers", "WEN-OKN Database", "System"⟩
    ⟨"Count rivers per county in Ohio state", "System", "System"⟩ [] (by decide)

/-- C4 (corrected).  The original claim — that on exhaustion of the 5 attempts the
adapter's resolve fails with a `SourceResolutionFailed` error rather than returning a
non-error value — is refuted by `claim_C4_counterexample`: the source does `return
None`.  Amended claim: when the request stays within this source, resolve makes at
most 5 attempts; the attempts executed are numbered 0,1,2,... in order, each
synthesizing a fresh query via the Oracle (attempt `k` uses the Oracle's `k`-th
synthesis, see `attempt_once`/`attempt_query`); `None` is returned exactly after 5
failed attempts; a returned annotation comes from the first successful attempt; and
the tabular-to-geometry conversion fails unless some column name ends in the
geometry marker "Geometry". -/
theorem claim_C4_retry_budget (env : WenoknEnv) (atomic_request : String)
    (h : env.useOtherSources atomic_request = false) :
    (wenokn_get_dataframe_annot env atomic_request).2.length ≤ 5 ∧
    (wenokn_get_dataframe_annot env atomic_request).2 =
      List.range (wenokn_get_dataframe_annot env atomic_request).2.length ∧
    ((wenokn_get_dataframe_annot env atomic_request).1 = none →
      (wenokn_get_dataframe_annot env atomic_request).2.length = 5 ∧
      ∀ k < 5, ∃ e, attempt_once env atomic_request k = .error e) ∧
    (∀ d, (wenokn_get_dataframe_annot env atomic_request).1 = some d →
      ∃ k < 5, attempt_once env atomic_request k = .ok d ∧
        ∀ j < k, ∃ e, attempt_once env atomic_request j = .error e) ∧
    (∀ (w : String → Except String String) (df : PyDF),
      df.columns.any (fun c => c.endsWith "Geometry") = false →
      df_to_gdf w df = .error "IndexError: list index out of range") := by
  have hw : wenokn_get_dataframe_annot env atomic_request =
      wenoknGo env atomic_request 0 5 := by
    rw [wenokn_get_dataframe_annot, if_neg (by rw [h]; simp)]
  obtain ⟨hs1, hs2, hs3, hs4⟩ := wenoknGo_spec env atomic_request 5 0
  rw [hw]
  refine ⟨hs2, ?_, ?_, ?_, fun w df hdf => df_to_gdf_no_geometry w df hdf⟩
  · rw [List.range_eq_range']
    exact hs1
  · intro hnone
    obtain ⟨hl, hall⟩ := hs3 hnone
    exact ⟨hl, fun k hk => hall k (Nat.zero_le k) (by omega)⟩
  · intro d hd
    obtain ⟨k, _, hk2, hk3, hk4⟩ := hs4 d hd
    exact ⟨k, by omega, hk3, fun j hj => hk4 j (Nat.zero_le j) hj⟩

/-- C4 witness: the amended claim applied to the always-failing adapter environment:
the hypothesis holds and the run makes exactly the attempts 0..4. -/
theorem claim_C4_witness :
    envC4.useOtherSources "Find Ohio River" = false ∧
    (wenokn_get_dataframe_annot envC4 "Find Ohio River").2.length ≤ 5 ∧
    (wenokn_get_dataframe_annot envC4 "Find Ohio River").2 =
      List.range (wenokn_get_dataframe_annot envC4 "Find Ohio River").2.length :=
  ⟨rfl, (claim_C4_retry_budget envC4 "Find Ohio River" rfl).1,
   (claim_C4_retry_budget envC4 "Find Ohio River" rfl).2.1⟩

/-- C4 counterexample: with a backing endpoint that always raises, all 5 attempts
fail (attempt numbers 0..4 are executed) and the adapter RETURNS `none` — the Python
`return None` after the loop — instead of raising an error carrying the last failure:
the claimed `SourceResolutionFailed` propagation does not exist in the code. -/
theorem claim_C4_counterexample :
    wenokn_get_dataframe_annot envC4 "Find Ohio River" = (none, [0, 1, 2, 3, 4]) := by
  decide

/-- C5 (confirmed).  During linear plan execution, a step whose source adapter
resolves to an annotation with an empty table makes the whole `process_request` call
raise: the run's result is the propagated exception (no final result), the resolver
trace ends at the failing step, and no step after it is ever dispatched (every trace
index is at most the failing step's). -/
theorem claim_C5_empty_result_aborts (env : LinearEnv) (request : String)
    (plan₁ : List Step) (s : Step) (plan₂ : List Step)
    (repo repo1 : List DataFrameAnnot) (dfa1 : Option DataFrameAnnot)
    (t : List (Nat × String)) (lk : List String) (d : DataFrameAnnot)
    (hpre : process_request_steps env request (plan₁ ++ s :: plan₂).length repo
      none 0 plan₁ = ⟨.ok (repo1, dfa1), t, lk⟩)
    (hret : env.hasRetriever s.data_source = true)
    (hdf : env.isDataFrameRetriever s.data_source = true)
    (hcon : env.containsOracle repo1 s.request = false)
    (hres : env.resolve s.data_source repo1 s.request = some d)
    (hemp : d.df.rows = []) :
    (process_request_linear env request (plan₁ ++ s :: plan₂) repo).result =
      .error ("Failed to fetch data for the query: " ++ s.request) ∧
    (process_request_linear env request (plan₁ ++ s :: plan₂) repo).resolveTrace =
      t ++ [(plan₁.length, s.request)] ∧
    ∀ p ∈ (process_request_linear env request (plan₁ ++ s :: plan₂) repo).resolveTrace,
      p.1 ≤ plan₁.length := by
  have hempty : d.df.pyEmpty = true := by
    rw [PyDF.pyEmpty, hemp]
    rfl
  have hstep : stepOne env request (plan₁ ++ s :: plan₂).length repo1 dfa1
      (0 + plan₁.length) s =
      .fail ("Failed to fetch data for the query: " ++ s.request)
        [(0 + plan₁.length, s.request)] [] := by
    rw [stepOne, if_pos hret, if_pos hdf, if_neg (by rw [hcon]; simp), hres]
    simp only [hempty, if_pos]
  have hrun : process_request_linear env request (plan₁ ++ s :: plan₂) repo =
      ⟨.error ("Failed to fetch data for the query: " ++ s.request),
       t ++ [(0 + plan₁.length, s.request)], lk ++ []⟩ := by
    rw [process_request_linear,
      process_request_steps_append env request (plan₁ ++ s :: plan₂).length plan₁
        (s :: plan₂) repo none 0, hpre]
    simp only
    rw [process_request_steps, hstep]
  refine ⟨by rw [hrun], by rw [hrun]; simp, ?_⟩
  intro p hp
  rw [hrun] at hp
  simp only [List.append_nil, Nat.zero_add] at hp
  rcases List.mem_append.mp hp with hp | hp
  · have := process_request_steps_trace_lt env request (plan₁ ++ s :: plan₂).length
      plan₁ repo none 0 p (by rw [hpre]; exact hp)
    omega
  · simp at hp
    subst hp
    exact Nat.le_refl _

/-- C5 witness: the theorem applied to a concrete single-step plan whose resolver
returns an empty table: the run raises and the only dispatch is step 0. -/
theorem claim_C5_witness :
    (process_request_linear envC5 "Find dams in Atlantis"
        [⟨"Find dams in Atlantis", "WEN-OKN Database", "User"⟩] []).result =
      .error ("Failed to fetch data for the query: " ++ "Find dams in Atlantis") ∧
    (process_request_linear envC5 "Find dams in Atlantis"
        [⟨"Find dams in Atlantis", "WEN-OKN Database", "User"⟩] []).resolveTrace =
      [] ++ [(0, "Find dams in Atlantis")] :=
  have h := claim_C5_empty_result_aborts envC5 "Find dams in Atlantis" []
    ⟨"Find dams in Atlantis", "WEN-OKN Database", "User"⟩ [] [] [] none [] []
    dfaEmptyRows rfl rfl rfl rfl rfl rfl
  ⟨h.1, h.2.1⟩

/-- C8 (corrected).  The original claim — every command-surface operation returns a
success-flagged payload and never raises for every response shape — is refuted by
`claim_C8_counterexample` (`search_datasets` raises `AttributeError` on a record with
a coverage resource but no map resource).  Amended claim: on a caught transport error
every operation returns a structured payload with `success=False` and the error
message; `search_datasets` also returns a flagged payload on a non-list body, and a
flagged success payload whenever every retained record having a coverage (WCS)
resource also has a map (WMS) resource; `compute_zonal_stats` and `zonal_count`
return the endpoint's body verbatim on success. -/
theorem claim_C8_structured_payloads :
    (∀ (q : String) (k : Nat) (pkgs : List Package),
      (∀ pkg ∈ pkgs.take k, (findResource pkg "WCS").isSome →
        (findResource pkg "WMS").isSome) →
      ∃ p : SearchPayload, search_datasets q k (.ok (.list pkgs)) = .ok p ∧
        p.success = true ∧ p.datasets.isSome = true ∧ p.error = none) ∧
    (∀ (q : String) (k : Nat) (e : String),
      ∃ p : SearchPayload, search_datasets q k (.error e) = .ok p ∧
        p.success = false ∧ p.error = some e ∧
        p.message = "Failed to search datasets: " ++ e) ∧
    (∀ (q : String) (k : Nat),
      ∃ p : SearchPayload, search_datasets q k (.ok .nonList) = .ok p ∧
        p.success = false ∧
        p.message = "Unexpected response format from RAG endpoint") ∧
    (∀ e : String, zonal_op_result (.error e) =
      .obj [("success", .bool false), ("error", .str e),
            ("message", .str ("Failed to call API endpoint: " ++ e))]) ∧
    (∀ body : PyJson, zonal_op_result (.ok body) = body) := by
  refine ⟨?_, ?_, ?_, fun e => rfl, fun body => rfl⟩
  · intro q k pkgs h
    obtain ⟨ds, hds⟩ := buildDatasets_ok (pkgs.take k) h
    have h0 : search_datasets q k (.ok (.list pkgs)) =
        (match buildDatasets (pkgs.take k) with
        | .error e => (.error e : Except String SearchPayload)
        | .ok ds2 =>
          .ok { success := true, datasets := some ds2, count := some ds2.length,
                query := q,
                message := "Found " ++ toString ds2.length ++ " relevant datasets",
                error := none }) := rfl
    have heq : search_datasets q k (.ok (.list pkgs)) =
        .ok { success := true, datasets := some ds, count := some ds.length,
              query := q,
              message := "Found " ++ toString ds.length ++ " relevant datasets",
              error := none } := by
      rw [h0, hds]
    exact ⟨_, heq, rfl, rfl, rfl⟩
  · intro q k e
    exact ⟨_, rfl, rfl, rfl, rfl⟩
  · intro q k
    exact ⟨_, rfl, rfl, rfl⟩

/-- C8 witness: the amended claim applied to a well-formed record (coverage and map
resources both present): a flagged success payload is returned. -/
theorem claim_C8_witness :
    (∀ pkg ∈ [pkgC8ok].take 3, (findResource pkg "WCS").isSome →
      (findResource pkg "WMS").isSome) ∧
    ∃ p : SearchPayload,
      search_datasets "carbon turnover" 3 (.ok (.list [pkgC8ok])) = .ok p ∧
      p.success = true ∧ p.datasets.isSome = true ∧ p.error = none :=
  ⟨by decide,
   claim_C8_structured_payloads.1 "carbon turnover" 3 [pkgC8ok] (by decide)⟩

/-- C8 counterexample: a RAG response whose only record has a coverage (WCS) resource
but no map (WMS) resource makes `search_datasets` evaluate
`wms_resource.get('wms_layer')` on `None`: the `AttributeError` is not a
`RequestException`, so it escapes the handler and crosses the tool boundary instead
of a structured payload. -/
theorem claim_C8_counterexample :
    search_datasets "carbon turnover time" 3 (.ok (.list [pkgC8])) =
      .error "AttributeError: NoneType object has no attribute get" := by
  decide

/-- C9 counterexample: with the source's default timeout of 30 (well inside the
documented 10-120 range), the HTTP request is issued with timeout 60, exceeding the
caller-supplied bound. -/
theorem claim_C9_counterexample :
    (compute_zonal_stats_call 3 30 16
        "https://sparcal.sdsc.edu/api/v1/Utility/compute_zonal_stats").http_timeout =
      60 ∧
    ¬((compute_zonal_stats_call 3 30 16
        "https://sparcal.sdsc.edu/api/v1/Utility/compute_zonal_stats").http_timeout ≤
      30) ∧
    (zonal_count_call 3 30 16
        "https://sparcal.sdsc.edu/api/v1/Utility/zonal_count_batch").http_timeout =
      60 ∧
    ¬((zonal_count_call 3 30 16
        "https://sparcal.sdsc.edu/api/v1/Utility/zonal_count_batch").http_timeout ≤
      30) := by
  refine ⟨?_, ?_, ?_, ?_⟩ <;> decide
